import Mathlib

/-!
Verification development for the trem2_unidock screening pipeline.

Shallow embedding of the Python scripts under `scripts/`:
  * `dock.py`    — docking dispatcher with a pause/resume ledger
                   (`docking_state.json`, field `completed_ligands`);
  * `getdata.py` — parallel fetch with retry, failure-rate monitor,
                   gzip extraction and the multi-record PDBQT splitter;
  * `see_results.py` — score parsing of docked output files.

Modelling conventions, used throughout:
  * the filesystem is a size map `String → ℕ` (a missing file and an
    empty file both map to `0`; the scripts only ever test
    `os.path.exists(p) and os.path.getsize(p) > 0`, which is `0 < fs p`);
  * the external docking engine is a parameter turning an invocation
    description (`EngineCall`) into an exit code plus the post-invocation
    filesystem; a non-zero exit code stands for every failed-invocation
    path of the script (`CalledProcessError` and kin);
  * Python strings are `String`, with the handful of `str` methods the
    scripts use re-implemented structurally over `List Char`.
-/

namespace Trem2

/-! ### Python string primitives used by the scripts -/

/-- Split a character list at every character satisfying `p`
(the separators are dropped, empty fields kept) — the skeleton behind
`str.split(sep)` and `os.path` component handling. -/
def splitOnP (p : Char → Bool) : List Char → List (List Char)
  | [] => [[]]
  | c :: cs =>
    match splitOnP p cs with
    | [] => [[]]
    | q :: qs => if p c then [] :: q :: qs else (c :: q) :: qs

/-- `str.strip()` on the whitespace the inputs contain (space, tab, CR, LF). -/
def pyStrip (cs : List Char) : List Char :=
  ((cs.dropWhile Char.isWhitespace).reverse.dropWhile Char.isWhitespace).reverse

/-- `str.strip()` lifted to `String`. -/
def strip (s : String) : String := ⟨pyStrip s.data⟩

/-- `str.split()` with no argument: split on whitespace runs, dropping
empty fields. -/
def splitWs (cs : List Char) : List (List Char) :=
  (splitOnP Char.isWhitespace cs).filter (fun w => !w.isEmpty)

/-- `str.startswith(pre)`. -/
def startsWithS (s pre : String) : Bool := pre.data.isPrefixOf s.data

/-- One fuel step of `str.replace(pat, repl)`; fuel bounds the scan length
so the recursion is structural. -/
def replaceAllFuel (pat repl : List Char) : ℕ → List Char → List Char
  | 0, l => l
  | _ + 1, [] => []
  | fuel + 1, c :: cs =>
    if pat.isPrefixOf (c :: cs) then
      repl ++ replaceAllFuel pat repl fuel ((c :: cs).drop pat.length)
    else
      c :: replaceAllFuel pat repl fuel cs

/-- `str.replace(pat, repl)` for a non-empty pattern: leftmost,
non-overlapping, never rescanning the replacement (matches CPython for
the non-empty patterns the scripts use). -/
def replaceAll (pat repl l : List Char) : List Char :=
  if pat.isEmpty then l else replaceAllFuel pat repl l.length l

/-- `pat in s` on strings: does `pat` occur as a contiguous substring? -/
def containsSub (pat : List Char) : List Char → Bool
  | [] => pat.isEmpty
  | c :: cs => pat.isPrefixOf (c :: cs) || containsSub pat cs

/-- `os.path.join(d, f)` for the one-level joins the scripts perform. -/
def pathJoin (d f : String) : String := d ++ "/" ++ f

/-- `os.path.basename(p)`: the component after the last slash. -/
def basename (p : String) : String := ⟨(splitOnP (fun c => c == '/') p.data).getLastD []⟩

/-- `os.path.splitext(name)[0]`: everything before the last dot (the whole
name when there is no dot).  The scripts only apply it to plain file
names such as `ZINC000.pdbqt`, so the leading-dot special case of
`os.path.splitext` never arises. -/
def splitext_root (name : String) : String :=
  let parts := splitOnP (fun c => c == '.') name.data
  if parts.length ≤ 1 then name else ⟨List.intercalate ['.'] parts.dropLast⟩

/-! ### dock.py — pause/resume ledger (`docking_state.json`) -/

/-- The in-memory docking state: `{'completed_ligands': [...]}`
(`dock.py` lines 55–64).  An absent key behaves as the empty list, so a
single list field is the whole state. -/
structure DockingState where
  completed_ligands : List String
deriving DecidableEq, Repr

/-- `is_ligand_completed` (`dock.py` line 55): membership of the ligand
path in `completed_ligands`. -/
def is_ligand_completed (ligand_path : String) (state : DockingState) : Bool :=
  decide (ligand_path ∈ state.completed_ligands)

/-- `mark_ligand_completed` (`dock.py` line 59): append the ligand path
unless it is already present. -/
def mark_ligand_completed (ligand_path : String) (state : DockingState) : DockingState :=
  if ligand_path ∈ state.completed_ligands then state
  else { state with completed_ligands := state.completed_ligands ++ [ligand_path] }

/-! ### dock.py — the dispatcher `run_unidock` -/

/-- One invocation of the external engine: batch mode passes the index
file's ligand list (`--ligand_index`), single mode passes one ligand and
one explicit output path (`--ligand`/`--out`). -/
inductive EngineCall
  | batch (ligandIndex : List String)
  | single (ligand : String) (outputPath : String)
deriving DecidableEq, Repr

/-- What the external engine did: its process exit code and the
filesystem after it ran. -/
structure EngineOutcome where
  exitCode : ℕ
  fsAfter : String → ℕ

/-- Value of a `run_unidock` run: the returned
`(total_successful, failed_dockings)` pair, the engine invocations that
were issued, and the final in-memory ledger state. -/
structure DispatchResult where
  successful : ℕ
  failed : ℕ
  calls : List EngineCall
  finalState : DockingState

/-- The batch-mode expected artifact name, `f"{ligand_name}_out.pdbqt"`
(`dock.py` line 231). -/
def batch_output_name (ligand_stem : String) : String := ligand_stem ++ "_out.pdbqt"

/-- The single-mode output artifact name,
`os.path.splitext(os.path.basename(ligand_file))[0] + "_docked.pdbqt"`
(`dock.py` line 261). -/
def single_output_name (ligand_stem : String) : String := ligand_stem ++ "_docked.pdbqt"

/-- `run_unidock` (`dock.py` lines 123–321), over an already-discovered
ligand file list.  Filters the ledger-completed ligands, dispatches the
rest in one batch invocation (two or more remaining) or one single-mode
invocation (exactly one remaining), counts successes from artifact
sizes, marks successes in the ledger, and returns
`successful + completed_count` as the success count. -/
def run_unidock (engine : EngineCall → EngineOutcome) (ligand_files : List String)
    (output_dir : String) (state : DockingState) : DispatchResult :=
  if ligand_files.isEmpty then ⟨0, 0, [], state⟩
  else
    let completed_count := (ligand_files.filter (fun lf => is_ligand_completed lf state)).length
    match ligand_files.filter (fun lf => !is_ligand_completed lf state) with
    | [] => ⟨completed_count, 0, [], state⟩
    | [ligand_file] =>
      let output_path := pathJoin output_dir (single_output_name (splitext_root (basename ligand_file)))
      let call := EngineCall.single ligand_file output_path
      let out := engine call
      if out.exitCode = 0 then
        if 0 < out.fsAfter output_path then
          ⟨1 + completed_count, 0, [call], mark_ligand_completed ligand_file state⟩
        else
          ⟨0 + completed_count, 1, [call], state⟩
      else
        ⟨0 + completed_count, 1, [call], state⟩
    | lf₁ :: lf₂ :: rest =>
      let remaining := lf₁ :: lf₂ :: rest
      let call := EngineCall.batch remaining
      let out := engine call
      if out.exitCode = 0 then
        let step := fun (acc : ℕ × ℕ × DockingState) (lf : String) =>
          if 0 < out.fsAfter (pathJoin output_dir (batch_output_name (splitext_root (basename lf)))) then
            (acc.1 + 1, acc.2.1, mark_ligand_completed lf acc.2.2)
          else
            (acc.1, acc.2.1 + 1, acc.2.2)
        let res := remaining.foldl step (0, 0, state)
        ⟨res.1 + completed_count, res.2.1, [call], res.2.2⟩
      else
        ⟨0 + completed_count, remaining.length, [call], state⟩

/-! ### see_results.py — glob pattern of the reporting component -/

/-- The reporting component collects files with
`glob.glob(os.path.join(DOCKING_OUTPUT_DIR, "*_docked.pdbqt"))`
(`see_results.py` line 65); for a file name, that pattern matches
exactly the names ending in `_docked.pdbqt`. -/
def matchesDockedGlob (name : String) : Bool :=
  decide ("_docked.pdbqt".data <:+ name.data)

end Trem2

namespace Trem2

/-! ### C6 — idempotence of `mark_ligand_completed` -/

/-- C6: `markCompleted` is idempotent — for every ledger state and every
identity, marking the same identity twice yields the same completed
collection as marking it once, and marking an already-present identity
is a no-op. -/
theorem mark_ligand_completed_idempotent (state : DockingState) (p : String) :
    mark_ligand_completed p (mark_ligand_completed p state) = mark_ligand_completed p state
    ∧ (p ∈ state.completed_ligands → mark_ligand_completed p state = state) := by
  constructor
  · by_cases h : p ∈ state.completed_ligands
    · simp [mark_ligand_completed, h]
    · have h2 : p ∈ state.completed_ligands ++ [p] := by
        simp
      simp [mark_ligand_completed, h, h2]
  · intro h
    simp [mark_ligand_completed, h]

/-- Witness for C6 at a concrete ledger containing the identity. -/
theorem mark_ligand_completed_idempotent_witness :
    mark_ligand_completed "lig/X.pdbqt" (mark_ligand_completed "lig/X.pdbqt" ⟨["lig/X.pdbqt"]⟩)
        = mark_ligand_completed "lig/X.pdbqt" ⟨["lig/X.pdbqt"]⟩
    ∧ mark_ligand_completed "lig/X.pdbqt" ⟨["lig/X.pdbqt"]⟩ = ⟨["lig/X.pdbqt"]⟩ :=
  ⟨(mark_ligand_completed_idempotent ⟨["lig/X.pdbqt"]⟩ "lig/X.pdbqt").1,
   (mark_ligand_completed_idempotent ⟨["lig/X.pdbqt"]⟩ "lig/X.pdbqt").2 (by decide)⟩

/-! ### C1 — dispatcher skip rule, three-ligand scenario

Scenario data: ligands `A`, `B`, `C`; `C` is ledger-marked completed;
`B`'s batch-mode output artifact `out/B_out.pdbqt` already exists
non-empty; the engine run succeeds and produces `A`'s artifact (leaving
`B`'s pre-existing artifact in place). -/

/-- The engine behaviour in the C1 scenario: exit code 0, artifacts for
`A` (newly produced) and `B` (pre-existing) present afterwards. -/
def engineC1 : EngineCall → EngineOutcome := fun _ =>
  { exitCode := 0,
    fsAfter := fun p =>
      if p = "out/A_out.pdbqt" then 812 else if p = "out/B_out.pdbqt" then 640 else 0 }

/-- The C1 scenario ledger: only `C` is marked completed. -/
def ledgerC1 : DockingState := ⟨["lig/C.pdbqt"]⟩

/-- The C1 scenario dispatch run over ligands `A`, `B`, `C`. -/
def dispatchC1 : DispatchResult :=
  run_unidock engineC1 ["lig/A.pdbqt", "lig/B.pdbqt", "lig/C.pdbqt"] "out" ledgerC1

/-- Counterexample to C1 as stated: in the three-ligand scenario the
dispatcher filters only the ledger-completed ligand `C`; there is no
pre-dispatch artifact-existence skip, so the single batch invocation of
the external engine includes ligand `B` (whose output artifact already
exists non-empty) alongside `A` — the engine is not invoked "only for
ligand A". -/
theorem run_unidock_scenario_invokes_B :
    dispatchC1.calls = [EngineCall.batch ["lig/A.pdbqt", "lig/B.pdbqt"]]
    ∧ dispatchC1.calls ≠ [EngineCall.batch ["lig/A.pdbqt"]] := by
  constructor <;> decide

/-- C1 (amended): before dispatching, the dispatcher filters out every
ligand whose ledger identity is marked completed; the remaining ligands
— including those whose expected output artifact already exists — are
all passed to the external engine in one batch invocation, and after it
returns each ligand whose expected artifact exists with non-zero size is
counted as success, so in the scenario the invocation covers `A` and
`B`, the final success count is 3 with 0 failures, and all three
ligands end up ledger-completed. -/
theorem run_unidock_scenario_counts :
    dispatchC1.calls = [EngineCall.batch ["lig/A.pdbqt", "lig/B.pdbqt"]]
    ∧ dispatchC1.successful = 3
    ∧ dispatchC1.failed = 0
    ∧ dispatchC1.finalState.completed_ligands
        = ["lig/C.pdbqt", "lig/A.pdbqt", "lig/B.pdbqt"] := by
  refine ⟨?_, ?_, ?_, ?_⟩ <;> decide

/-! ### C3 — single-ligand mode success criterion -/

/-- C3: in single-ligand mode, the dispatcher counts the ligand as
successful (and marks it in the ledger) exactly when the engine process
exits with code zero and the output artifact exists with non-zero size;
otherwise — in particular on a zero exit with a missing or zero-byte
artifact — it is counted as failed and the ledger is unchanged. -/
theorem run_unidock_single_success_iff (engine : EngineCall → EngineOutcome)
    (lf output_dir : String) (state : DockingState)
    (h : lf ∉ state.completed_ligands) :
    ((run_unidock engine [lf] output_dir state).successful = 1
      ∧ (run_unidock engine [lf] output_dir state).failed = 0
      ∧ lf ∈ (run_unidock engine [lf] output_dir state).finalState.completed_ligands
    ↔ (engine (EngineCall.single lf
          (pathJoin output_dir (single_output_name (splitext_root (basename lf)))))).exitCode = 0
      ∧ 0 < (engine (EngineCall.single lf
          (pathJoin output_dir (single_output_name (splitext_root (basename lf)))))).fsAfter
          (pathJoin output_dir (single_output_name (splitext_root (basename lf)))))
    ∧ (¬ ((engine (EngineCall.single lf
          (pathJoin output_dir (single_output_name (splitext_root (basename lf)))))).exitCode = 0
        ∧ 0 < (engine (EngineCall.single lf
          (pathJoin output_dir (single_output_name (splitext_root (basename lf)))))).fsAfter
          (pathJoin output_dir (single_output_name (splitext_root (basename lf))))) →
        (run_unidock engine [lf] output_dir state).successful = 0
        ∧ (run_unidock engine [lf] output_dir state).failed = 1
        ∧ (run_unidock engine [lf] output_dir state).finalState = state) := by
  have hc : is_ligand_completed lf state = false := by
    simp [is_ligand_completed, h]
  simp only [run_unidock, List.isEmpty_cons, List.filter, hc, Bool.not_false, List.length_nil]
  set outPath := pathJoin output_dir (single_output_name (splitext_root (basename lf))) with hOP
  set out := engine (EngineCall.single lf outPath) with hOut
  by_cases he : out.exitCode = 0
  · by_cases hs : 0 < out.fsAfter outPath
    · constructor
      · simp [he, hs, mark_ligand_completed, h]
      · intro hcontra
        exact absurd ⟨he, hs⟩ hcontra
    · constructor
      · simp [he, hs]
      · intro _
        simp [he, hs]
  · constructor
    · simp [he]
    · intro _
      simp [he]

/-- An engine that exits with code zero but leaves every artifact empty
(the "zero exit, zero-byte output" scenario). -/
def engineZeroByte : EngineCall → EngineOutcome := fun _ =>
  { exitCode := 0, fsAfter := fun _ => 0 }

/-- Witness for C3: with a zero-exit engine that writes a zero-byte
artifact, the single-mode run counts the ligand as failed and leaves the
ledger unchanged. -/
theorem run_unidock_single_success_iff_witness :
    (run_unidock engineZeroByte ["lig/L.pdbqt"] "out" ⟨[]⟩).successful = 0
    ∧ (run_unidock engineZeroByte ["lig/L.pdbqt"] "out" ⟨[]⟩).failed = 1
    ∧ (run_unidock engineZeroByte ["lig/L.pdbqt"] "out" ⟨[]⟩).finalState = (⟨[]⟩ : DockingState) :=
  (run_unidock_single_success_iff engineZeroByte "lig/L.pdbqt" "out" ⟨[]⟩
    (by decide)).2 (by intro hcontra; exact absurd hcontra.2 (by decide))

/-! ### getdata.py — progress counters and the failure-rate monitor -/

/-- The shared `progress_counter` dict (`getdata.py` line 23). -/
structure ProgressCounter where
  completed : ℕ
  failed : ℕ
  consecutive_failures : ℕ
  total_processed : ℕ
deriving DecidableEq, Repr

/-- The initial counter values at process start (`getdata.py` line 23). -/
def progress_counter_init : ProgressCounter :=
  { completed := 0, failed := 0, consecutive_failures := 0, total_processed := 0 }

/-- The success-path counter update of `download_zinc_subset`
(`getdata.py` lines 69–72): increment `completed` and
`total_processed`, reset `consecutive_failures`. -/
def record_success (c : ProgressCounter) : ProgressCounter :=
  { c with completed := c.completed + 1, consecutive_failures := 0,
           total_processed := c.total_processed + 1 }

/-- The failure-path counter update of `download_zinc_subset`
(`getdata.py` lines 89–92 and 96–99, identical blocks): increment
`failed`, `consecutive_failures` and `total_processed`. -/
def record_failure (c : ProgressCounter) : ProgressCounter :=
  { c with failed := c.failed + 1, consecutive_failures := c.consecutive_failures + 1,
           total_processed := c.total_processed + 1 }

/-- The "Reset progress counters" block at the start of
`download_all_from_uri_file` (`getdata.py` lines 164–167): it sets
`completed` and `failed` to zero and touches nothing else. -/
def reset_progress_counters (c : ProgressCounter) : ProgressCounter :=
  { c with completed := 0, failed := 0 }

/-- Which branch of `should_halt_download` produced the halt message
(the formatted reason strings are I/O; the branch is the semantics). -/
inductive HaltReason
  | consecutiveFailures
  | failureRate
  | debugHalt
deriving DecidableEq, Repr

/-- `should_halt_download` (`getdata.py` lines 103–129): consecutive
failures are checked first, then the failure rate once the sample is at
least `early_check_count`, then the debug-mode early halt.
`download_all_from_uri_file` calls it as
`should_halt_download(0.20, 50, 10, True)` (lines 197 and 213). -/
def should_halt_download (max_failure_rate : ℚ) (early_check_count consecutive_limit : ℕ)
    (debug_mode : Bool) (c : ProgressCounter) : Bool × Option HaltReason :=
  if consecutive_limit ≤ c.consecutive_failures then
    (true, some HaltReason.consecutiveFailures)
  else if early_check_count ≤ c.total_processed
      ∧ max_failure_rate < (c.failed : ℚ) / (c.total_processed : ℚ) then
    (true, some HaltReason.failureRate)
  else if debug_mode ∧ 5 ≤ c.consecutive_failures then
    (true, some HaltReason.debugHalt)
  else
    (false, none)

/-- Iterating the failure update adds to the consecutive-failure count. -/
theorem record_failure_iterate (c : ProgressCounter) (n : ℕ) :
    (record_failure^[n] c).consecutive_failures = c.consecutive_failures + n := by
  induction n with
  | zero => simp
  | succ k ih =>
    rw [Function.iterate_succ_apply']
    simp only [record_failure, ih]
    omega

/-! ### C4 — consecutive-failure halt -/

/-- C4: ten consecutive reported failures with no intervening success —
from any prior counter state, so regardless of prior successes — drive
the consecutive-failure counter to the limit 10, and whenever that
counter is at least 10 the halt check (at its `getdata.py` call-site
configuration) reports HALTED with the consecutive-failure reason. -/
theorem monitor_consecutive_halt (c : ProgressCounter) :
    should_halt_download (1/5) 50 10 true (record_failure^[10] c)
        = (true, some HaltReason.consecutiveFailures)
    ∧ (10 ≤ c.consecutive_failures →
        should_halt_download (1/5) 50 10 true c = (true, some HaltReason.consecutiveFailures)) := by
  have key : ∀ d : ProgressCounter, 10 ≤ d.consecutive_failures →
      should_halt_download (1/5) 50 10 true d = (true, some HaltReason.consecutiveFailures) := by
    intro d hd
    unfold should_halt_download
    rw [if_pos hd]
  exact ⟨key _ (by rw [record_failure_iterate]; omega), key c⟩

/-- Witness for C4 at a counter with 100 prior successes and the
consecutive-failure counter exactly at the limit. -/
theorem monitor_consecutive_halt_witness :
    should_halt_download (1/5) 50 10 true
        { completed := 100, failed := 10, consecutive_failures := 10, total_processed := 110 }
        = (true, some HaltReason.consecutiveFailures) :=
  (monitor_consecutive_halt
    { completed := 100, failed := 10, consecutive_failures := 10, total_processed := 110 }).2
    (by decide)

/-! ### C5 — failure-rate halt and minimum sample size -/

/-- C5: with at least 50 processed and a failure ratio strictly above
1/5, the halt check reports HALTED; below 50 processed the failure-rate
condition can never be the halt reason. -/
theorem monitor_failure_rate (c : ProgressCounter) (debug_mode : Bool) :
    (50 ≤ c.total_processed →
      (1/5 : ℚ) < (c.failed : ℚ) / (c.total_processed : ℚ) →
      (should_halt_download (1/5) 50 10 debug_mode c).1 = true)
    ∧ (c.total_processed < 50 →
      (should_halt_download (1/5) 50 10 debug_mode c).2 ≠ some HaltReason.failureRate) := by
  constructor
  · intro h1 h2
    unfold should_halt_download
    split
    · rfl
    · rw [if_pos ⟨h1, h2⟩]
  · intro hlt
    unfold should_halt_download
    split
    · simp
    · rw [if_neg (fun hc => absurd hc.1 (by omega))]
      split <;> simp

/-- Witness for C5: 11 failures out of 50 (rate 0.22) halts; 3 failures
out of 49 is below the sample minimum, so the reason is never the
failure rate. -/
theorem monitor_failure_rate_witness :
    (should_halt_download (1/5) 50 10 true
        { completed := 39, failed := 11, consecutive_failures := 0, total_processed := 50 }).1 = true
    ∧ (should_halt_download (1/5) 50 10 true
        { completed := 46, failed := 3, consecutive_failures := 3, total_processed := 49 }).2
        ≠ some HaltReason.failureRate :=
  ⟨(monitor_failure_rate
      { completed := 39, failed := 11, consecutive_failures := 0, total_processed := 50 } true).1
      (by decide) (by norm_num),
   (monitor_failure_rate
      { completed := 46, failed := 3, consecutive_failures := 3, total_processed := 49 } true).2
      (by decide)⟩

/-! ### C8 — counter invariants and the per-run reset -/

/-- Counterexample to C8 as stated: the reset performed at the start of
a `download_all_from_uri_file` run zeroes only `completed` and `failed`;
after one recorded success, resetting does not return the counters to
the all-zero initial state (`total_processed` stays 1). -/
theorem reset_progress_counters_partial :
    reset_progress_counters (record_success progress_counter_init) ≠ progress_counter_init := by
  decide

/-- C8 (amended): `completed + failed = total_processed` is preserved by
every full counter update (and holds initially); `consecutive_failures`
resets to 0 on any success and increments by 1 on any failure; the
start-of-run reset zeroes only `completed` and `failed`, leaving
`consecutive_failures` and `total_processed` unchanged (they are zero
only via the process-start initial state). -/
theorem progress_counter_invariants (c : ProgressCounter)
    (h : c.completed + c.failed = c.total_processed) :
    (record_success c).completed + (record_success c).failed = (record_success c).total_processed
    ∧ (record_failure c).completed + (record_failure c).failed = (record_failure c).total_processed
    ∧ (record_success c).consecutive_failures = 0
    ∧ (record_failure c).consecutive_failures = c.consecutive_failures + 1
    ∧ (reset_progress_counters c).completed = 0
    ∧ (reset_progress_counters c).failed = 0
    ∧ (reset_progress_counters c).consecutive_failures = c.consecutive_failures
    ∧ (reset_progress_counters c).total_processed = c.total_processed
    ∧ progress_counter_init.completed + progress_counter_init.failed
        = progress_counter_init.total_processed := by
  refine ⟨?_, ?_, rfl, rfl, rfl, rfl, rfl, rfl, rfl⟩
  · simp only [record_success]
    omega
  · simp only [record_failure]
    omega

/-- Witness for C8 (amended) at the initial counter state. -/
theorem progress_counter_invariants_witness :
    (record_success progress_counter_init).completed
        + (record_success progress_counter_init).failed
        = (record_success progress_counter_init).total_processed
    ∧ (record_failure progress_counter_init).completed
        + (record_failure progress_counter_init).failed
        = (record_failure progress_counter_init).total_processed
    ∧ (record_success progress_counter_init).consecutive_failures = 0
    ∧ (record_failure progress_counter_init).consecutive_failures
        = progress_counter_init.consecutive_failures + 1
    ∧ (reset_progress_counters progress_counter_init).completed = 0
    ∧ (reset_progress_counters progress_counter_init).failed = 0
    ∧ (reset_progress_counters progress_counter_init).consecutive_failures
        = progress_counter_init.consecutive_failures
    ∧ (reset_progress_counters progress_counter_init).total_processed
        = progress_counter_init.total_processed
    ∧ progress_counter_init.completed + progress_counter_init.failed
        = progress_counter_init.total_processed :=
  progress_counter_invariants progress_counter_init (by decide)

/-! ### getdata.py — per-unit download with retry (C2) -/

/-- Recursion core of `download_zinc_subset` (`getdata.py` lines
25–101).  `net k` is the outcome of the HTTP attempt made at
`retry_count = k`: `some size` for a completed transfer of `size`
bytes, `none` for a request error (after which the code retries while
`retry_count < 3`).  Result: the returned filepath (or `none` after the
retries are exhausted), the filesystem afterwards, and how many
transfer attempts were performed.  The fuel argument only makes the
recursion structural; the entry point supplies enough for the 4
possible attempts, so the `0` case is never reached from it.  A failed
attempt is modelled as leaving the destination unchanged. -/
def download_go (net : ℕ → Option ℕ) (fs : String → ℕ) (filepath : String) :
    ℕ → ℕ → Option String × (String → ℕ) × ℕ
  | _, 0 => (none, fs, 0)
  | retry_count, fuel + 1 =>
    match net retry_count with
    | some size => (some filepath, Function.update fs filepath size, 1)
    | none =>
      if retry_count < 3 then
        let r := download_go net fs filepath (retry_count + 1) fuel
        (r.1, r.2.1, r.2.2 + 1)
      else
        (none, fs, 1)

/-- `download_zinc_subset` (`getdata.py` lines 25–101): note that the
function performs its HTTP request unconditionally — it never looks at
the destination file before transferring. -/
def download_zinc_subset (net : ℕ → Option ℕ) (fs : String → ℕ) (filepath : String)
    (retry_count : ℕ) : Option String × (String → ℕ) × ℕ :=
  download_go net fs filepath retry_count 4

/-- A network on which every attempt succeeds with a 50-byte body. -/
def netC2 : ℕ → Option ℕ := fun _ => some 50

/-- A filesystem on which the destination already exists with 100
bytes. -/
def fsC2 : String → ℕ := fun p => if p = "lig_raw/ZINC000.pdbqt.gz" then 100 else 0

/-- Counterexample to C2 as stated: the destination artifact already
exists with non-zero size (100 bytes), yet the download routine still
performs a transfer attempt and overwrites the destination with the
fresh 50-byte body — no existence/size check precedes the fetch. -/
theorem download_refetches_existing :
    0 < fsC2 "lig_raw/ZINC000.pdbqt.gz"
    ∧ (download_zinc_subset netC2 fsC2 "lig_raw/ZINC000.pdbqt.gz" 0).2.2 = 1
    ∧ (download_zinc_subset netC2 fsC2 "lig_raw/ZINC000.pdbqt.gz" 0).2.1
        "lig_raw/ZINC000.pdbqt.gz" = 50 := by
  refine ⟨by decide, by decide, ?_⟩
  simp [download_zinc_subset, download_go, netC2, Function.update]

/-- C2 (amended): the per-unit download routine performs the transfer
unconditionally — even when the destination artifact already exists
with non-zero size it makes at least one transfer attempt, and a
successful first attempt overwrites the destination.  Re-running the
Fetch Executor therefore re-fetches every unit; no artifact-existence
skip exists in this stage. -/
theorem download_always_transfers (net : ℕ → Option ℕ) (fs : String → ℕ)
    (filepath : String) (h : 0 < fs filepath) :
    0 < (download_zinc_subset net fs filepath 0).2.2
    ∧ (∀ n, net 0 = some n → (download_zinc_subset net fs filepath 0).2.1 filepath = n) := by
  unfold download_zinc_subset download_go
  cases hn : net 0 with
  | some size => simp [hn, Function.update]
  | none => simp [hn]

/-- Witness for C2 (amended) on the concrete pre-existing destination. -/
theorem download_always_transfers_witness :
    0 < (download_zinc_subset netC2 fsC2 "lig_raw/ZINC000.pdbqt.gz" 0).2.2
    ∧ (∀ n, netC2 0 = some n →
        (download_zinc_subset netC2 fsC2 "lig_raw/ZINC000.pdbqt.gz" 0).2.1
          "lig_raw/ZINC000.pdbqt.gz" = n) :=
  download_always_transfers netC2 fsC2 "lig_raw/ZINC000.pdbqt.gz" (by decide)

/-! ### getdata.py — the PDBQT record splitter -/

/-- `get_tranche_name_from_filename` (`getdata.py` lines 292–300):
strip the `.pdbqt.gz`/`.pdbqt` suffixes and keep the base name when it
still contains a dot. -/
def get_tranche_name_from_filename (filename : String) : String :=
  if containsSub ".pdbqt".data filename.data then
    let base : String := ⟨replaceAll ".pdbqt".data [] (replaceAll ".pdbqt.gz".data [] filename.data)⟩
    if base.data.contains '.' then base else "unknown_tranche"
  else "unknown_tranche"

/-- Python `f"{n:06d}"` for the natural numbers the splitter indexes
with. -/
def pad6 (n : ℕ) : String :=
  let s := toString n
  ⟨List.replicate (6 - s.length) '0' ++ s.data⟩

/-- `line.split('=', 1)[1]`: everything after the first `=` (the
callers only apply it to lines known to contain one). -/
def after_first_eq (cs : List Char) : List Char :=
  (cs.dropWhile (fun c => !(c == '='))).drop 1

/-- `_save_molecule` (`getdata.py` lines 302–341) as a value: `none`
when called with no lines (the function returns without writing),
otherwise the `(tranche directory, file name, cleaned lines)` of the
file it writes.  MODEL/ENDMDL marker lines are filtered out; a supplied
molecule name is sanitized to alphanumerics and `.`, `_`, `-`;
otherwise a `REMARK  Name =` line inside the cleaned body supplies the
name (unsanitized, as in the source); otherwise the zero-padded
sequential index. -/
def _save_molecule (molecule_lines : List String) (molecule_name : Option String)
    (tranche_name : String) (molecule_index : ℕ) : Option (String × String × List String) :=
  if molecule_lines.isEmpty then none
  else
    let clean_lines := molecule_lines.filter (fun l =>
      !(startsWithS (strip l) "MODEL" || startsWithS (strip l) "ENDMDL"))
    let filename : String :=
      match molecule_name with
      | some name =>
        ⟨(name ++ ".pdbqt").data.filter (fun c => c.isAlphanum || c == '.' || c == '_' || c == '-')⟩
      | none =>
        match clean_lines.find? (fun l => startsWithS l "REMARK  Name =") with
        | some l => (⟨pyStrip (after_first_eq l.data)⟩ : String) ++ ".pdbqt"
        | none => "molecule_" ++ pad6 molecule_index ++ ".pdbqt"
    some (tranche_name, filename, clean_lines)

/-- The loop state of `split_single_pdbqt` (`getdata.py` lines
368–420): files written so far, the accumulated record, the name seen
for it, and the number of molecules saved. -/
structure SplitState where
  saves : List (String × String × List String)
  current_molecule : List String
  current_name : Option String
  molecule_count : ℕ

/-- One line of the `split_single_pdbqt` loop (`getdata.py` lines
377–409): a `MODEL` line flushes any open record and starts a new one;
a `REMARK  Name =` line records the name and is kept; an `ENDMDL` line
closes and saves the record; any other line is kept only when a record
is open. -/
def split_step (tranche_name : String) (st : SplitState) (raw_line : String) : SplitState :=
  let line := strip raw_line
  if startsWithS line "MODEL" then
    let st1 :=
      if st.current_molecule.isEmpty then st
      else
        { st with
          saves := st.saves ++ (_save_molecule st.current_molecule st.current_name
              tranche_name st.molecule_count).toList
          molecule_count := st.molecule_count + 1 }
    { st1 with current_molecule := [line], current_name := none }
  else if startsWithS line "REMARK  Name =" then
    { st with current_name := some ⟨pyStrip (after_first_eq line.data)⟩,
              current_molecule := st.current_molecule ++ [line] }
  else if startsWithS line "ENDMDL" then
    let cur := st.current_molecule ++ [line]
    { saves := st.saves ++ (_save_molecule cur st.current_name tranche_name st.molecule_count).toList
      current_molecule := []
      current_name := none
      molecule_count := st.molecule_count + 1 }
  else
    if st.current_molecule.isEmpty then st
    else { st with current_molecule := st.current_molecule ++ [line] }

/-- `split_single_pdbqt` (`getdata.py` lines 368–420): fold the loop
over the file's lines, then flush a still-open record at end of file
(lines 411–415).  Result: the files written and the molecule count. -/
def split_single_pdbqt (source_filename : String) (lines : List String) :
    List (String × String × List String) × ℕ :=
  let tranche_name := get_tranche_name_from_filename source_filename
  let st := lines.foldl (split_step tranche_name) ⟨[], [], none, 0⟩
  if st.current_molecule.isEmpty then (st.saves, st.molecule_count)
  else
    (st.saves ++ (_save_molecule st.current_molecule st.current_name
        tranche_name st.molecule_count).toList,
     st.molecule_count + 1)

/-- The C7 source file `X.xaa.pdbqt`: a record named `ZINC001`, an
unnamed record, and a third record left open at end of file. -/
def linesC7 : List String :=
  ["MODEL 1",
   "REMARK  Name = ZINC001",
   "ATOM      1  C   LIG A   1",
   "ENDMDL",
   "MODEL 2",
   "ATOM      1  N   LIG A   1",
   "ENDMDL",
   "MODEL 3",
   "ATOM      1  O   LIG A   1"]

/-- C7: splitting `X.xaa.pdbqt` with two well-formed records (the first
named `ZINC001`, the second unnamed) and a trailing record left open at
end of file produces exactly 3 output files, all in the tranche
directory `X.xaa`, named `ZINC001.pdbqt`, `molecule_000001.pdbqt` and
`molecule_000002.pdbqt` — the unterminated trailing record is flushed
as a final record, not discarded. -/
theorem split_single_pdbqt_scenario :
    (split_single_pdbqt "X.xaa.pdbqt" linesC7).2 = 3
    ∧ (split_single_pdbqt "X.xaa.pdbqt" linesC7).1
        = [("X.xaa", "ZINC001.pdbqt",
              ["REMARK  Name = ZINC001", "ATOM      1  C   LIG A   1"]),
           ("X.xaa", "molecule_000001.pdbqt", ["ATOM      1  N   LIG A   1"]),
           ("X.xaa", "molecule_000002.pdbqt", ["ATOM      1  O   LIG A   1"])] := by
  constructor <;> decide

/-! ### see_results.py — score parsing (C9) -/

/-- The exact value of a decimal token `±d…d.d…d`: `mantissa / 10 ^
fracDigits`.  This is the information Python's `float(...)` receives;
the scenario's values (`-7.5`, `-8.25`) are exactly representable, so no
rounding intervenes. -/
structure DecimalVal where
  mantissa : ℤ
  fracDigits : ℕ
deriving DecidableEq, Repr

/-- The rational value a `DecimalVal` denotes. -/
def DecimalVal.toRat (d : DecimalVal) : ℚ := (d.mantissa : ℚ) / 10 ^ d.fracDigits

/-- Value of a string of ASCII digits. -/
def digitsToNat (ds : List Char) : ℕ :=
  ds.foldl (fun n c => 10 * n + (c.toNat - 48)) 0

/-- `float(token)` for the plain signed decimal notation the score
files contain; anything else (which would raise `ValueError` or use
exponent notation, neither of which occurs here) is `none`. -/
def parseDecimal (cs : List Char) : Option DecimalVal :=
  let signed : ℤ × List Char :=
    match cs with
    | '-' :: r => (-1, r)
    | '+' :: r => (1, r)
    | r => (1, r)
  match splitOnP (fun c => c == '.') signed.2 with
  | [ip] =>
    if !ip.isEmpty && ip.all Char.isDigit then
      some ⟨signed.1 * digitsToNat ip, 0⟩
    else none
  | [ip, fp] =>
    if !(ip ++ fp).isEmpty && (ip ++ fp).all Char.isDigit then
      some ⟨signed.1 * digitsToNat (ip ++ fp), fp.length⟩
    else none
  | _ => none

/-- One score dict produced by `parse_unidock_pdbqt_vina`
(`see_results.py` line 36): the `mode` key is absent (`none`) until a
later `MODEL` line or the final pass assigns it. -/
structure ScoreEntry where
  mode : Option ℕ
  affinity_kcal_mol : DecimalVal
deriving DecidableEq, Repr

/-- The mode-assignment loop (`see_results.py` lines 41–43 and 53–55):
give every entry still missing a mode its 1-based position. -/
def assign_modes (scores : List ScoreEntry) : List ScoreEntry :=
  scores.mapIdx (fun i e => if e.mode = none then { e with mode := some (i + 1) } else e)

/-- `parse_unidock_pdbqt_vina` (`see_results.py` lines 10–57): collect
the fourth whitespace-separated field of every `REMARK VINA RESULT:`
line; a `MODEL` line seen after scores exist triggers a mode
assignment, and a final assignment follows the loop. -/
def parse_unidock_pdbqt_vina (lines : List String) : List ScoreEntry :=
  let step := fun (scores : List ScoreEntry) (line : String) =>
    if startsWithS line "REMARK VINA RESULT:" then
      let parts := splitWs line.data
      if 4 ≤ parts.length then
        match parseDecimal (parts.getD 3 []) with
        | some a => scores ++ [{ mode := none, affinity_kcal_mol := a }]
        | none => scores
      else scores
    else if startsWithS line "MODEL" && !scores.isEmpty then assign_modes scores
    else scores
  assign_modes (lines.foldl step [])

/-- The C9 docked-output file: two MODEL/ENDMDL blocks, each with one
score line. -/
def linesC9 : List String :=
  ["MODEL 1",
   "REMARK VINA RESULT:    -7.5   0.000   0.000",
   "ATOM      1  C   LIG A   1",
   "ENDMDL",
   "MODEL 2",
   "REMARK VINA RESULT:    -8.25   1.102   2.094",
   "ENDMDL"]

/-- C9: parsing a docked-output file with two MODEL/ENDMDL blocks, each
holding one `REMARK VINA RESULT:` line, yields exactly two score
records whose affinities are the fourth whitespace-separated field of
the respective score lines (−7.5 and the second block's −8.25), with
modes 1 and 2 assigned in order of appearance. -/
theorem parse_unidock_pdbqt_vina_scenario :
    parse_unidock_pdbqt_vina linesC9
      = [{ mode := some 1, affinity_kcal_mol := ⟨-75, 1⟩ },
         { mode := some 2, affinity_kcal_mol := ⟨-825, 2⟩ }]
    ∧ DecimalVal.toRat ⟨-75, 1⟩ = -7.5
    ∧ DecimalVal.toRat ⟨-825, 2⟩ = -8.25 := by
  refine ⟨by decide, ?_, ?_⟩ <;> · simp only [DecimalVal.toRat]; norm_num

/-! ### C10 — batch/single output artifact names and the report glob -/

/-- C10: batch mode checks `<stem>_out.pdbqt` while single mode writes
and checks `<stem>_docked.pdbqt`; these are different names for every
ligand stem, and the reporting component's `*_docked.pdbqt` glob
matches every single-mode output name and no batch-mode output name. -/
theorem dispatch_output_names_disjoint (stem : String) :
    batch_output_name stem ≠ single_output_name stem
    ∧ matchesDockedGlob (single_output_name stem) = true
    ∧ matchesDockedGlob (batch_output_name stem) = false := by
  refine ⟨?_, ?_, ?_⟩
  · intro h
    have h2 : stem.data ++ "_out.pdbqt".data = stem.data ++ "_docked.pdbqt".data := by
      have h1 := congrArg String.data h
      simp only [batch_output_name, single_output_name, String.data_append] at h1
      exact h1
    exact absurd (List.append_cancel_left h2) (by decide)
  · have h1 : "_docked.pdbqt".data <:+ (single_output_name stem).data := by
      simp only [single_output_name, String.data_append]
      exact List.suffix_append _ _
    simp [matchesDockedGlob, h1]
  · have h1 : ¬ ("_docked.pdbqt".data <:+ (batch_output_name stem).data) := by
      intro hs
      simp only [batch_output_name, String.data_append] at hs
      have h2 : "_out.pdbqt".data <:+ stem.data ++ "_out.pdbqt".data := List.suffix_append _ _
      have h3 : "_out.pdbqt".data <:+ "_docked.pdbqt".data := by
        have h4 := List.prefix_of_prefix_length_le
          (List.reverse_prefix.mpr h2) (List.reverse_prefix.mpr hs) (by simp)
        exact List.reverse_prefix.mp h4
      exact absurd h3 (by decide)
    simp [matchesDockedGlob, h1]

end Trem2
